import Mathlib

/-
Verification of the event-correlation and timeline-export engine of the
Capture-All browser extension (src/background.js and the content script).

The JavaScript is embedded shallowly: the mutable service-worker state
(networkLogs, attachedTabs, isRecording, the persisted interaction and
snapshot logs) becomes explicit state passed through pure step functions,
and each handler in background.js becomes a Lean function that follows the
source line by line.  Timestamps (Date.now() values, milliseconds since
epoch) are modelled as Int.  Platform collaborators that are not repository
code (Network.getResponseBody, atob, JSON.parse of a body, the FileReader
data-URL encoder) are passed in as explicit parameters so the handlers stay
pure; a body parsed from JSON is carried as its underlying text, which no
property here inspects.
-/

namespace CaptureAll

/-- Check that a list starts with the given pattern (used to build the
substring test that models the String.prototype.includes calls). -/
def startsWithList : List Char → List Char → Bool
  | _, [] => true
  | [], _ :: _ => false
  | a :: as, b :: bs => a == b && startsWithList as bs

/-- Check that the pattern occurs as a contiguous run somewhere in the list. -/
def hasSubList : List Char → List Char → Bool
  | l, pat =>
    startsWithList l pat ||
    match l with
    | [] => false
    | _ :: rest => hasSubList rest pat

/-- Model of the JavaScript s.includes(pat) substring test. -/
def strIncludes (s pat : String) : Bool :=
  hasSubList s.toList pat.toList

/-- Apply a function to the element at index i, leaving the list unchanged
when the index is out of range.  Models the in-place mutation
networkLogs[requestIndex].field = value performed by the handlers. -/
def updateAt {α : Type} (l : List α) (i : Nat) (f : α → α) : List α :=
  match l[i]? with
  | some a => l.set i (f a)
  | none => l

/- ===== Network log data model (src/background.js) ===== -/

/-- Response sub-record attached by handleNetworkResponse
(src/background.js lines 678-684 and 721-722). -/
structure NetResponse where
  status : Int
  statusText : String
  headers : List (String × String)
  mimeType : String
  timestamp : Int
  body : Option String := none
  bodySize : Option Nat := none
deriving Repr, DecidableEq

/-- Terminal sub-record set by handleNetworkLoadingFinished
(src/background.js lines 739-742). -/
structure LoadingFinishedInfo where
  timestamp : Int
  encodedDataLength : Int
deriving Repr, DecidableEq

/-- Terminal sub-record set by handleNetworkLoadingFailed
(src/background.js lines 753-757). -/
structure LoadingFailedInfo where
  timestamp : Int
  errorText : String
  canceled : Bool
deriving Repr, DecidableEq

/-- One entry of the in-memory networkLogs array, as created by
handleNetworkRequest (src/background.js lines 657-666) and mutated in place
by the later phase handlers. -/
structure NetworkLogEntry where
  type : String
  timestamp : Int
  requestId : String
  url : String
  method : String
  headers : List (String × String)
  postData : Option String
  tabId : Int
  response : Option NetResponse := none
  loadingFinished : Option LoadingFinishedInfo := none
  loadingFailed : Option LoadingFailedInfo := none
deriving Repr, DecidableEq

/-- Payload of a Network.requestWillBeSent protocol event. -/
structure RequestParams where
  requestId : String
  url : String
  method : String
  headers : List (String × String)
  postData : Option String
deriving Repr, DecidableEq

/-- The params.response object of a Network.responseReceived event. -/
structure ResponseInfo where
  status : Int
  statusText : String
  headers : List (String × String)
  mimeType : String
deriving Repr, DecidableEq

/-- Payload of a Network.responseReceived protocol event. -/
structure ResponseParams where
  requestId : String
  response : ResponseInfo
deriving Repr, DecidableEq

/-- Payload of a Network.loadingFinished protocol event. -/
structure LoadingFinishedParams where
  requestId : String
  encodedDataLength : Int
deriving Repr, DecidableEq

/-- Payload of a Network.loadingFailed protocol event. -/
structure LoadingFailedParams where
  requestId : String
  errorText : String
  canceled : Bool
deriving Repr, DecidableEq

/-- Result of the out-of-band Network.getResponseBody command. -/
structure ResponseBodyResult where
  body : String
  base64Encoded : Bool

/-- Platform collaborators used by the body-fetch part of
handleNetworkResponse: the debugger body fetch (none when the command
throws), atob (none when decoding throws) and JSON.parse of the body text
(none when parsing throws; a successfully parsed object is carried as its
text). -/
structure BodyFetchEnv where
  getResponseBody : Option ResponseBodyResult
  atobDecode : String → Option String
  parseJsonBody : String → Option String

/-- Entry constructed by handleNetworkRequest
(src/background.js lines 657-666). -/
def mkRequestEntry (params : RequestParams) (tabId now : Int) : NetworkLogEntry :=
  { type := "request"
    timestamp := now
    requestId := params.requestId
    url := params.url
    method := params.method
    headers := params.headers
    postData := params.postData
    tabId := tabId
    response := none
    loadingFinished := none
    loadingFailed := none }

/-- handleNetworkRequest (src/background.js lines 656-670): always pushes a
fresh entry onto networkLogs. -/
def handleNetworkRequest (params : RequestParams) (tabId now : Int)
    (logs : List NetworkLogEntry) : List NetworkLogEntry :=
  logs ++ [mkRequestEntry params tabId now]

/-- The findIndex predicate shared by the response and terminal handlers
(src/background.js lines 673-675, 734-736, 748-750). -/
def matchesRequest (requestId : String) (log : NetworkLogEntry) : Bool :=
  log.requestId == requestId && log.type == "request"

/-- The MIME-type gate for fetching a response body
(src/background.js lines 687-691). -/
def isTextLikeMime (mimeType : String) : Bool :=
  strIncludes mimeType "json" || strIncludes mimeType "javascript" ||
    strIncludes mimeType "text" || strIncludes mimeType "xml"

/-- Body-fetch part of handleNetworkResponse
(src/background.js lines 686-727): fetch the body for text-like MIME types,
decode base64 if flagged (keeping the raw text when decoding fails), try a
JSON parse for json MIME types (keeping the text on failure), and record
body and bodySize; any fetch failure leaves the response without a body. -/
def attachResponseBody (env : BodyFetchEnv) (mimeType : String)
    (resp : NetResponse) : NetResponse :=
  if isTextLikeMime mimeType then
    match env.getResponseBody with
    | some rb =>
      if rb.body == "" then resp
      else
        let decoded := if rb.base64Encoded then (env.atobDecode rb.body).getD rb.body
          else rb.body
        let content := if strIncludes mimeType "json" then (env.parseJsonBody decoded).getD decoded
          else decoded
        { resp with body := some content, bodySize := some rb.body.length }
    | none => resp
  else resp

/-- The response sub-record built by handleNetworkResponse
(src/background.js lines 678-684) together with its body enrichment. -/
def buildResponse (params : ResponseParams) (now : Int) (env : BodyFetchEnv) : NetResponse :=
  attachResponseBody env params.response.mimeType
    { status := params.response.status
      statusText := params.response.statusText
      headers := params.response.headers
      mimeType := params.response.mimeType
      timestamp := now
      body := none
      bodySize := none }

/-- handleNetworkResponse (src/background.js lines 672-731): findIndex
locates the first entry whose requestId matches and whose type is request,
and the response sub-record is assigned to that entry; when no entry
matches, nothing happens. -/
def handleNetworkResponse (params : ResponseParams) (now : Int) (env : BodyFetchEnv)
    (logs : List NetworkLogEntry) : List NetworkLogEntry :=
  match logs.findIdx? (matchesRequest params.requestId) with
  | some i => updateAt logs i (fun e => { e with response := some (buildResponse params now env) })
  | none => logs

/-- handleNetworkLoadingFinished (src/background.js lines 733-745). -/
def handleNetworkLoadingFinished (params : LoadingFinishedParams) (now : Int)
    (logs : List NetworkLogEntry) : List NetworkLogEntry :=
  match logs.findIdx? (matchesRequest params.requestId) with
  | some i => updateAt logs i (fun e =>
      { e with loadingFinished := some { timestamp := now, encodedDataLength := params.encodedDataLength } })
  | none => logs

/-- handleNetworkLoadingFailed (src/background.js lines 747-760). -/
def handleNetworkLoadingFailed (params : LoadingFailedParams) (now : Int)
    (logs : List NetworkLogEntry) : List NetworkLogEntry :=
  match logs.findIdx? (matchesRequest params.requestId) with
  | some i => updateAt logs i (fun e =>
      { e with loadingFailed := some { timestamp := now, errorText := params.errorText, canceled := params.canceled } })
  | none => logs

/-- One delivered network phase event, as dispatched by onDebuggerEvent
(src/background.js lines 637-654). -/
inductive NetEvent where
  | requestSent (params : RequestParams) (tabId now : Int)
  | responseReceived (params : ResponseParams) (now : Int) (env : BodyFetchEnv)
  | loadingFinished (params : LoadingFinishedParams) (now : Int)
  | loadingFailed (params : LoadingFailedParams) (now : Int)

/-- Effect of one delivered phase event on the networkLogs array. -/
def netStep (logs : List NetworkLogEntry) : NetEvent → List NetworkLogEntry
  | .requestSent params tabId now => handleNetworkRequest params tabId now logs
  | .responseReceived params now env => handleNetworkResponse params now env logs
  | .loadingFinished params now => handleNetworkLoadingFinished params now logs
  | .loadingFailed params now => handleNetworkLoadingFailed params now logs

/-- Run a sequence of delivered phase events against an initially empty
networkLogs array. -/
def runNetEvents (evs : List NetEvent) : List NetworkLogEntry :=
  evs.foldl netStep []

/- ===== Content-script data model (the unnamed content script) ===== -/

/-- Viewport metrics returned by getViewportData (content script lines
300-308).  Numeric DOM metrics are carried as integers; no verified
property computes with them. -/
structure Viewport where
  width : Int
  height : Int
  scrollX : Int
  scrollY : Int
  devicePixelRatio : Int
deriving Repr, DecidableEq

/-- Bounding box from getBoundingClientRect (content script line 207). -/
structure DomRect where
  top : Int
  left : Int
  width : Int
  height : Int
deriving Repr, DecidableEq

/-- The element descriptor built by getElementData (content script lines
204-225). -/
structure ElementDescriptor where
  tagName : String
  id : Option String
  className : Option String
  xpath : String
  selector : String
  text : Option String
  attributes : List (String × String)
  position : DomRect
  visible : Bool
deriving Repr, DecidableEq

/-- A DOM element as observed by the content script.  The xpath and
selector fields carry the results of getXPath and getCssSelector, which
are pure functions of the position of the element in the document tree.  attrs
holds the content attributes read through hasAttribute/getAttribute; the
live value property of an input element is a separate field, because
typing into an input updates the value property without touching the value
content attribute. -/
structure Element where
  tagName : String
  id : String
  className : String
  xpath : String
  selector : String
  textContent : String
  attrs : List (String × String)
  rect : DomRect
  styleDisplay : String
  styleVisibility : String
  styleOpacity : String
  value : Option String
deriving Repr, DecidableEq

/-- The attribute allow-list of getRelevantAttributes (content script line
282). -/
def relevantAttrs : List String :=
  ["href", "src", "alt", "title", "name", "type", "value", "placeholder"]

/-- getRelevantAttributes (content script lines 280-291): keep the
allow-listed content attributes the element actually has. -/
def getRelevantAttributes (el : Element) : List (String × String) :=
  relevantAttrs.filterMap (fun attr => (el.attrs.lookup attr).map (fun v => (attr, v)))

/-- isElementVisible (content script lines 293-298). -/
def isElementVisible (el : Element) : Bool :=
  el.styleDisplay != "none" && el.styleVisibility != "hidden" && el.styleOpacity != "0"

/-- getElementData (content script lines 204-225).  Note that it never
reads the live value property: the text comes from textContent (empty for
an input) and the attributes from the content attributes. -/
def getElementData (el : Element) : ElementDescriptor :=
  { tagName := el.tagName
    id := if el.id == "" then none else some el.id
    className := if el.className == "" then none else some el.className
    xpath := el.xpath
    selector := el.selector
    text := if el.textContent == "" then none else some (el.textContent.take 100)
    attributes := getRelevantAttributes el
    position := el.rect
    visible := isElementVisible el }

/-- The record logged for an input event (content script lines 182-188). -/
structure InputInteraction where
  type : String
  element : ElementDescriptor
  valueLength : Nat
  inputType : Option String
  url : String
deriving Repr, DecidableEq

/-- handleInput (content script lines 179-189): when interaction recording
is active, log the element descriptor, the length of the value and the
input type; the raw value itself is never placed in the record. -/
def handleInput (isRecordingInteractions : Bool) (target : Element)
    (inputType : Option String) (url : String) : Option InputInteraction :=
  if isRecordingInteractions then
    some { type := "input"
           element := getElementData target
           valueLength := match target.value with
             | some v => v.length
             | none => 0
           inputType := inputType
           url := url }
  else none

/-- Client/page coordinates carried by pointer interactions. -/
structure Coordinates where
  clientX : Int
  clientY : Int
  pageX : Int
  pageY : Int
deriving Repr, DecidableEq

/-- Payload of one interaction record as sent by the logInteraction calls of the content script.  The drag distance, a floating-point Euclidean
distance in the source, is carried as an integer; no verified property
reads it. -/
inductive InteractionData where
  | click (element : ElementDescriptor) (coordinates : Coordinates) (url : String) (viewport : Viewport)
  | scroll (scrollX scrollY : Int) (url : String) (viewport : Viewport)
  | drag (element : ElementDescriptor) (startC endC : Coordinates) (distance duration : Int)
      (url : String) (viewport : Viewport)
  | inputEv (record : InputInteraction)
  | change (element : ElementDescriptor) (checked : Option Bool) (valueLength : Nat) (url : String)
deriving Repr, DecidableEq

/-- One entry of the persisted interactionLogs array: the content-script
payload plus the timestamp added by the background logInteraction handler
(src/background.js lines 597-600).  The source spreads the payload fields
into the stored object; here the payload sits in a data field with the
same timestamp alongside. -/
structure InteractionLogEntry where
  data : InteractionData
  timestamp : Int
deriving Repr, DecidableEq

/-- One entry of the persisted elementSnapshots array
(content script lines 331-338). -/
structure ElementSnapshot where
  timestamp : Int
  url : String
  elements : List ElementDescriptor
  viewport : Viewport
deriving Repr, DecidableEq

/- ===== Video artifact ===== -/

/-- An opaque binary payload as stored in the blob store.  size and type
are the properties the export code reads; the contents are abstracted as a
data string. -/
structure Blob where
  size : Nat
  type : String
  data : String
deriving Repr, DecidableEq

/-- The platform FileReader readAsDataURL encoder, modelled as tagging the
payload with its MIME type; the export code treats the result as an opaque
self-contained encoding of the blob. -/
def readAsDataURL (b : Blob) : String :=
  "data:" ++ b.type ++ ";base64," ++ b.data

/- ===== Orchestrator session state (src/background.js) ===== -/

/-- The mutable service-worker state owned by the orchestrator: the
in-memory network log and attachment set (src/background.js lines 11-20)
together with the persisted interaction and snapshot logs and the stored
video blob. -/
structure SessionState where
  isRecording : Bool
  networkLogs : List NetworkLogEntry
  attachedTabs : List Int
  videoBlob : Option Blob
  interactionLogs : List InteractionLogEntry
  elementSnapshots : List ElementSnapshot
deriving Repr, DecidableEq

/-- Set insertion for the attached-tab set. -/
def insertTab (tabId : Int) (tabs : List Int) : List Int :=
  if tabs.contains tabId then tabs else tabs ++ [tabId]

/-- The operations the orchestrator dispatches (message handler lines
500-614 and the debugger event hook lines 637-654 of src/background.js).
getStatus and exportLogs read the state without mutating it. -/
inductive Op where
  | startRecording (tabId : Int)
  | stopRecording (tabId : Int)
  | debuggerEvent (sourceTabId : Int) (ev : NetEvent)
  | logInteraction (data : InteractionData) (now : Int)
  | captureSnapshot (snap : ElementSnapshot)
  | exportLogs
  | getStatus
  | clearAllLogs

/-- Effect of each orchestrator operation on the session state, following
startRecording (lines 616-635, note networkLogs is reset to empty),
stopRecording (lines 762-778), the attached-tab guard of onDebuggerEvent (line
638), the logInteraction handler (lines 592-608), the captureCurrentElements
snapshot append, and clearAllLogs (lines 2537-2542). -/
def applyOp (st : SessionState) : Op → SessionState
  | .startRecording tabId =>
      { st with attachedTabs := insertTab tabId st.attachedTabs
                isRecording := true
                networkLogs := [] }
  | .stopRecording tabId =>
      { st with attachedTabs := st.attachedTabs.erase tabId
                isRecording := false }
  | .debuggerEvent sourceTabId ev =>
      if st.attachedTabs.contains sourceTabId then
        { st with networkLogs := netStep st.networkLogs ev }
      else st
  | .logInteraction data now =>
      { st with interactionLogs := st.interactionLogs ++ [{ data := data, timestamp := now }] }
  | .captureSnapshot snap =>
      { st with elementSnapshots := st.elementSnapshots ++ [snap] }
  | .exportLogs => st
  | .getStatus => st
  | .clearAllLogs =>
      { st with networkLogs := []
                videoBlob := none
                interactionLogs := []
                elementSnapshots := [] }

/- ===== Event aggregation (generateImprovedTimelineHTML, lines 932-974,
and the identical block of generateVideoTimelineHTML, lines 1907-1932) ===== -/

/-- Source record carried by a timeline event. -/
inductive EventPayload where
  | network (entry : NetworkLogEntry)
  | interaction (entry : InteractionLogEntry)
  | snapshot (snap : ElementSnapshot)
deriving Repr, DecidableEq

/-- One element of the allEvents array built before sorting. -/
structure TimelineEvent where
  type : String
  timestamp : Int
  data : EventPayload
deriving Repr, DecidableEq

/-- The concatenation phase: tag each source record with its kind, in
network-then-interaction-then-snapshot order (lines 934-967). -/
def tagTimelineEvents (networkLogs : List NetworkLogEntry)
    (interactionLogs : List InteractionLogEntry)
    (elementSnapshots : List ElementSnapshot) : List TimelineEvent :=
  networkLogs.map (fun log => { type := "network", timestamp := log.timestamp, data := .network log })
    ++ interactionLogs.map (fun log => { type := "interaction", timestamp := log.timestamp, data := .interaction log })
    ++ elementSnapshots.map (fun snap => { type := "snapshot", timestamp := snap.timestamp, data := .snapshot snap })

/-- allEvents.sort((a, b) => a.timestamp - b.timestamp) at line 970: the
platform sort is stable and orders ascending by the comparator, which this
merge sort realises. -/
def aggregateEvents (networkLogs : List NetworkLogEntry)
    (interactionLogs : List InteractionLogEntry)
    (elementSnapshots : List ElementSnapshot) : List TimelineEvent :=
  (tagTimelineEvents networkLogs interactionLogs elementSnapshots).mergeSort
    (fun a b => decide (a.timestamp ≤ b.timestamp))

/-- startTime derivation (line 972): first sorted timestamp, or the current
time when there are no events. -/
def timelineStartTime (now : Int) (sortedEvents : List TimelineEvent) : Int :=
  match sortedEvents with
  | [] => now
  | e :: _ => e.timestamp

/-- endTime derivation (line 973): last sorted timestamp, or the current
time when there are no events. -/
def timelineEndTime (now : Int) (sortedEvents : List TimelineEvent) : Int :=
  match sortedEvents.getLast? with
  | none => now
  | some e => e.timestamp

/-- duration derivation (line 974). -/
def timelineDuration (now : Int) (sortedEvents : List TimelineEvent) : Int :=
  timelineEndTime now sortedEvents - timelineStartTime now sortedEvents

/- ===== Video timeline HTML (generateVideoTimelineHTML) ===== -/

/-- The fixed inline-embedding cutoff, 10 MiB
(src/background.js line 1886). -/
def maxDataUrlSize : Nat := 10 * 1024 * 1024

/-- The video-source decision of generateVideoTimelineHTML (lines
1880-1905): a blob strictly below the cutoff is embedded as a data URL, a
blob at or above it is referenced by the co-located file name (falling
back to video.webm), and without a blob there is no source. -/
def resolveVideoSrc (videoBlob : Option Blob) (videoFileName : Option String) : Option String :=
  match videoBlob with
  | some b =>
      if b.size < maxDataUrlSize then some (readAsDataURL b)
      else some (videoFileName.getD "video.webm")
  | none => none

/-- The placeholder markup emitted when there is no video source
(src/background.js lines 2296-2303). -/
def videoPlaceholderHTML (videoFileName : Option String) : String :=
  "<div class=\"video-placeholder\"><svg viewBox=\"0 0 24 24\" fill=\"none\" stroke=\"currentColor\"><circle cx=\"12\" cy=\"12\" r=\"10\"/><polygon points=\"10 8 16 12 10 16 10 8\" fill=\"currentColor\"/></svg><p class=\"no-video\">Video recording not available</p><p style=\"font-size: 0.75rem; margin-top: 0.5rem;\">" ++
    (match videoFileName with
      | some name => "Video file: " ++ name ++ " (place in same directory as this HTML file)"
      | none => "Enable video mode to capture screen recording") ++
    "</p></div>"

/-- The video-container fragment of the generated document
(src/background.js lines 2294-2305): a media element bound to the resolved
source, or the placeholder when there is none. -/
def videoContainerHTML (videoSrc : Option String) (videoFileName : Option String) : String :=
  match videoSrc with
  | some src => "<video id=\"videoPlayer\" src=\"" ++ src ++ "\" controls></video>"
  | none => videoPlaceholderHTML videoFileName

/- ===== Export document (exportAllLogs, src/background.js lines 793-930) ===== -/

/-- The summary block of the export document (lines 883-887). -/
structure Summary where
  totalNetworkRequests : Nat
  totalInteractions : Nat
  totalElementSnapshots : Nat
deriving Repr, DecidableEq

/-- The videoData block of the export document (lines 878-882). -/
structure VideoDataField where
  hasVideo : Bool
  videoFileName : Option String := none
  videoSize : Option Nat := none
deriving Repr, DecidableEq

/-- The export document assembled at lines 871-888. -/
structure ExportData where
  exportDate : String
  tabId : Int
  mode : String
  networkLogs : List NetworkLogEntry
  interactionLogs : List InteractionLogEntry
  elementSnapshots : List ElementSnapshot
  videoData : VideoDataField
  summary : Summary
deriving Repr, DecidableEq

/-- Assembly of the export document (src/background.js lines 871-888): the
three log arrays are placed in the document as they are, and the summary
counts are their lengths. -/
def mkExportData (exportDate : String) (tabId : Int) (mode : String)
    (networkLogs : List NetworkLogEntry) (interactionLogs : List InteractionLogEntry)
    (elementSnapshots : List ElementSnapshot)
    (videoBlob : Option Blob) (videoFileName : Option String) : ExportData :=
  { exportDate := exportDate
    tabId := tabId
    mode := mode
    networkLogs := networkLogs
    interactionLogs := interactionLogs
    elementSnapshots := elementSnapshots
    videoData := match videoBlob with
      | some b => { hasVideo := true, videoFileName := videoFileName, videoSize := some b.size }
      | none => { hasVideo := false }
    summary := { totalNetworkRequests := networkLogs.length
                 totalInteractions := interactionLogs.length
                 totalElementSnapshots := elementSnapshots.length } }

/- ===== JSON rendering of the export document =====

JSON.stringify(exportData, null, 2) renders the document as text and
JSON.parse maps that text back to the value it denotes; the platform
guarantees the pair is inverse on the acyclic, undefined-free documents
built here.  The round trip is therefore settled on the JSON tree the
parsed text denotes, modelled by this inductive. -/

/-- A parsed JSON value. -/
inductive Json where
  | null
  | bool (b : Bool)
  | num (n : Int)
  | str (s : String)
  | arr (elems : List Json)
  | obj (fields : List (String × Json))
deriving Repr

/-- Field access on a parsed JSON object. -/
def Json.getField : Json → String → Option Json
  | .obj fields, name => fields.lookup name
  | _, _ => none

/-- Length of a parsed JSON array. -/
def Json.arrayLength : Json → Option Nat
  | .arr elems => some elems.length
  | _ => none

/-- Numeric value of a parsed JSON number. -/
def Json.asNum : Json → Option Int
  | .num n => some n
  | _ => none

/-- A JavaScript object field that is skipped by JSON.stringify when its
value is undefined. -/
def optField (name : String) (v : Option Json) : List (String × Json) :=
  match v with
  | some j => [(name, j)]
  | none => []

/-- Serialization of a headers object. -/
def headersToJson (hs : List (String × String)) : Json :=
  .obj (hs.map (fun p => (p.1, .str p.2)))

/-- Serialization of a response sub-record. -/
def netResponseToJson (r : NetResponse) : Json :=
  .obj ([("status", .num r.status),
         ("statusText", .str r.statusText),
         ("headers", headersToJson r.headers),
         ("mimeType", .str r.mimeType),
         ("timestamp", .num r.timestamp)]
    ++ optField "body" (r.body.map .str)
    ++ optField "bodySize" (r.bodySize.map (fun n => .num n)))

/-- Serialization of a network log entry. -/
def networkLogEntryToJson (e : NetworkLogEntry) : Json :=
  .obj ([("type", .str e.type),
         ("timestamp", .num e.timestamp),
         ("requestId", .str e.requestId),
         ("url", .str e.url),
         ("method", .str e.method),
         ("headers", headersToJson e.headers)]
    ++ optField "postData" (e.postData.map .str)
    ++ [("tabId", .num e.tabId)]
    ++ optField "response" (e.response.map netResponseToJson)
    ++ optField "loadingFinished" (e.loadingFinished.map (fun f =>
         .obj [("timestamp", .num f.timestamp), ("encodedDataLength", .num f.encodedDataLength)]))
    ++ optField "loadingFailed" (e.loadingFailed.map (fun f =>
         .obj [("timestamp", .num f.timestamp), ("errorText", .str f.errorText), ("canceled", .bool f.canceled)])))

/-- Serialization of a bounding box. -/
def domRectToJson (r : DomRect) : Json :=
  .obj [("top", .num r.top), ("left", .num r.left), ("width", .num r.width), ("height", .num r.height)]

/-- Serialization of a viewport record. -/
def viewportToJson (v : Viewport) : Json :=
  .obj [("width", .num v.width), ("height", .num v.height), ("scrollX", .num v.scrollX),
        ("scrollY", .num v.scrollY), ("devicePixelRatio", .num v.devicePixelRatio)]

/-- Serialization of an element descriptor. -/
def elementDescriptorToJson (d : ElementDescriptor) : Json :=
  .obj [("tagName", .str d.tagName),
        ("id", match d.id with | some s => .str s | none => .null),
        ("className", match d.className with | some s => .str s | none => .null),
        ("xpath", .str d.xpath),
        ("selector", .str d.selector),
        ("text", match d.text with | some s => .str s | none => .null),
        ("attributes", .obj (d.attributes.map (fun p => (p.1, .str p.2)))),
        ("position", domRectToJson d.position),
        ("visible", .bool d.visible)]

/-- Serialization of a coordinate set. -/
def coordinatesToJson (c : Coordinates) : Json :=
  .obj [("clientX", .num c.clientX), ("clientY", .num c.clientY),
        ("pageX", .num c.pageX), ("pageY", .num c.pageY)]

/-- Serialization of an interaction payload. -/
def interactionDataToJson : InteractionData → Json
  | .click element coordinates url viewport =>
      .obj [("type", .str "click"), ("element", elementDescriptorToJson element),
            ("coordinates", coordinatesToJson coordinates), ("url", .str url),
            ("viewport", viewportToJson viewport)]
  | .scroll scrollX scrollY url viewport =>
      .obj [("type", .str "scroll"),
            ("scrollPosition", .obj [("x", .num scrollX), ("y", .num scrollY)]),
            ("url", .str url), ("viewport", viewportToJson viewport)]
  | .drag element startC endC distance duration url viewport =>
      .obj [("type", .str "drag"), ("element", elementDescriptorToJson element),
            ("start", coordinatesToJson startC), ("end", coordinatesToJson endC),
            ("distance", .num distance), ("duration", .num duration),
            ("url", .str url), ("viewport", viewportToJson viewport)]
  | .inputEv record =>
      .obj ([("type", .str record.type), ("element", elementDescriptorToJson record.element),
             ("valueLength", .num record.valueLength)]
        ++ optField "inputType" (record.inputType.map .str)
        ++ [("url", .str record.url)])
  | .change element checked valueLength url =>
      .obj [("type", .str "change"), ("element", elementDescriptorToJson element),
            ("value", match checked with | some b => .bool b | none => .num valueLength),
            ("url", .str url)]

/-- Serialization of a stored interaction log entry. -/
def interactionLogEntryToJson (e : InteractionLogEntry) : Json :=
  .obj [("data", interactionDataToJson e.data), ("timestamp", .num e.timestamp)]

/-- Serialization of an element snapshot. -/
def elementSnapshotToJson (s : ElementSnapshot) : Json :=
  .obj [("timestamp", .num s.timestamp), ("url", .str s.url),
        ("elements", .arr (s.elements.map elementDescriptorToJson)),
        ("viewport", viewportToJson s.viewport)]

/-- Serialization of the videoData block: with a video the file name and
size are present (null when the name is missing), without one only the
hasVideo flag is written, matching the two object literals at lines
878-882. -/
def videoDataToJson (v : VideoDataField) : Json :=
  if v.hasVideo then
    .obj [("hasVideo", .bool true),
          ("videoFileName", match v.videoFileName with | some s => .str s | none => .null),
          ("videoSize", match v.videoSize with | some n => .num n | none => .null)]
  else .obj [("hasVideo", .bool false)]

/-- The JSON tree denoted by JSON.stringify(exportData, null, 2) at line
894, with the field layout of lines 871-888. -/
def exportDataToJson (d : ExportData) : Json :=
  .obj [("exportDate", .str d.exportDate),
        ("tabId", .num d.tabId),
        ("mode", .str d.mode),
        ("networkLogs", .arr (d.networkLogs.map networkLogEntryToJson)),
        ("interactionLogs", .arr (d.interactionLogs.map interactionLogEntryToJson)),
        ("elementSnapshots", .arr (d.elementSnapshots.map elementSnapshotToJson)),
        ("videoData", videoDataToJson d.videoData),
        ("summary", .obj [("totalNetworkRequests", .num d.summary.totalNetworkRequests),
                          ("totalInteractions", .num d.summary.totalInteractions),
                          ("totalElementSnapshots", .num d.summary.totalElementSnapshots)])]

/- ===== Export orchestration (exportAllLogs, lines 793-930) ===== -/

/-- The value the blob store hands back for the current-video key: nothing,
a value that is not a Blob instance, or a Blob. -/
inductive StoredVideo where
  | absent
  | notBlob
  | blob (b : Blob)
deriving Repr, DecidableEq

/-- Observable outcome of one export run: which file downloads were
issued and the document that was serialized. -/
structure ExportOutcome where
  videoDownloadFileName : Option String
  exportData : ExportData
  jsonDownloaded : Bool
  htmlDownloaded : Bool
deriving Repr, DecidableEq

/-- exportAllLogs (src/background.js lines 793-930).  In video mode the
stored value is validated (lines 810-822): a non-Blob value or an empty
blob is discarded; a blob over 500 MiB is kept but only warned about, so
no separate video file is downloaded and no file name is assigned; a valid
blob is downloaded under a timestamped name (lines 824-864, download
failures are caught and the export continues).  The document is then
assembled and the JSON and HTML files are downloaded (lines 870-921). -/
def exportAllLogs (tabId : Int) (mode : String)
    (networkLogs : List NetworkLogEntry) (interactionLogs : List InteractionLogEntry)
    (elementSnapshots : List ElementSnapshot) (stored : StoredVideo)
    (exportDate : String) (now : Int) : ExportOutcome :=
  let validated : Option Blob × Option String × Bool :=
    if mode == "video" then
      match stored with
      | .blob b =>
          if b.size == 0 then (none, none, false)
          else if 500 * 1024 * 1024 < b.size then (some b, none, false)
          else (some b, some ("capture_all_video_" ++ toString now ++ ".webm"), true)
      | .notBlob => (none, none, false)
      | .absent => (none, none, false)
    else (none, none, false)
  let videoBlob := validated.1
  let videoFileName := validated.2.1
  let videoDownloaded := validated.2.2
  { videoDownloadFileName := if videoDownloaded then videoFileName else none
    exportData := mkExportData exportDate tabId mode networkLogs interactionLogs
      elementSnapshots videoBlob videoFileName
    jsonDownloaded := true
    htmlDownloaded := true }

/- ===== Observation helpers for the statements ===== -/

/-- The creation-time fields of a network log entry, written once by
handleNetworkRequest and never touched by the later phase handlers; an
entry is still present in the log when a position still carries its
creation-time fields. -/
def entryCore (e : NetworkLogEntry) :
    String × Int × String × String × String × List (String × String) × Option String × Int :=
  (e.type, e.timestamp, e.requestId, e.url, e.method, e.headers, e.postData, e.tabId)

/-- Does this event deliver Network.loadingFinished for the given id. -/
def evSetsFinishedFor (requestId : String) : NetEvent → Bool
  | .loadingFinished p _ => p.requestId == requestId
  | _ => false

/-- Does this event deliver Network.loadingFailed for the given id. -/
def evSetsFailedFor (requestId : String) : NetEvent → Bool
  | .loadingFailed p _ => p.requestId == requestId
  | _ => false

/-- Was a loadingFinished event for the given id delivered in the run. -/
def hasFinishedEventB (requestId : String) (evs : List NetEvent) : Bool :=
  evs.any (evSetsFinishedFor requestId)

/-- Was a loadingFailed event for the given id delivered in the run. -/
def hasFailedEventB (requestId : String) (evs : List NetEvent) : Bool :=
  evs.any (evSetsFailedFor requestId)

/- ===== Concrete inputs used by counterexamples and witnesses ===== -/

/-- A body-fetch environment in which every out-of-band call fails; the
response handler then records the response meta-data without a body. -/
def envNone : BodyFetchEnv :=
  { getResponseBody := none, atobDecode := fun _ => none, parseJsonBody := fun _ => none }

/-- A concrete request-sent payload with id x. -/
def reqX : RequestParams :=
  { requestId := "x", url := "u", method := "GET", headers := [], postData := none }

/-- A concrete response payload with id x and the given status. -/
def respX (status : Int) : ResponseParams :=
  { requestId := "x", response := { status := status, statusText := "OK", headers := [], mimeType := "bin" } }

/-- Two requests reusing id x, each followed by a response event: the
scenario of the duplicate-id policy. -/
def dupResponseEvents : List NetEvent :=
  [.requestSent reqX 1 1000, .responseReceived (respX 200) 1001 envNone,
   .requestSent reqX 1 1002, .responseReceived (respX 201) 1003 envNone]

/-- One request for which both kinds of terminal event are delivered. -/
def finThenFailEvents : List NetEvent :=
  [.requestSent reqX 1 1000,
   .loadingFinished { requestId := "x", encodedDataLength := 5 } 1001,
   .loadingFailed { requestId := "x", errorText := "net", canceled := false } 1002]

/-- One request receiving only loadingFinished events (twice). -/
def finOnlyEvents : List NetEvent :=
  [.requestSent reqX 1 1000,
   .loadingFinished { requestId := "x", encodedDataLength := 5 } 1001,
   .loadingFinished { requestId := "x", encodedDataLength := 7 } 1002]

/-- A concrete entry as created by the request-sent phase. -/
def entryX : NetworkLogEntry := mkRequestEntry reqX 1 1000

/-- A session holding one recorded entry. -/
def sessionWithEntry : SessionState :=
  { isRecording := true, networkLogs := [entryX], attachedTabs := [1],
    videoBlob := none, interactionLogs := [], elementSnapshots := [] }

/-- A small video blob, below the inline cutoff. -/
def smallBlob : Blob := { size := 5, type := "video/webm", data := "AAAAA" }

/-- A blob exactly at the inline cutoff. -/
def bigBlob : Blob := { size := 10485760, type := "video/webm", data := "" }

/-- A zero-byte blob, rejected by the export validation. -/
def emptyBlob : Blob := { size := 0, type := "video/webm", data := "" }

/-- A concrete text input element; its live value property is empty. -/
def inputBoxW : Element :=
  { tagName := "INPUT", id := "q", className := "", xpath := "/html/body/input[1]",
    selector := "#q", textContent := "", attrs := [("type", "text")],
    rect := { top := 0, left := 0, width := 10, height := 10 },
    styleDisplay := "block", styleVisibility := "visible", styleOpacity := "1",
    value := none }

/- ===== Helper lemmas ===== -/

theorem updateAt_length {α : Type} (l : List α) (i : Nat) (f : α → α) :
    (updateAt l i f).length = l.length := by
  unfold updateAt
  cases h : l[i]? with
  | none => rfl
  | some a => simp

theorem updateAt_getElem?_ne {α : Type} (l : List α) (i : Nat) (f : α → α)
    {j : Nat} (h : i ≠ j) : (updateAt l i f)[j]? = l[j]? := by
  unfold updateAt
  cases hl : l[i]? with
  | none => rfl
  | some a => exact List.getElem?_set_ne h

theorem updateAt_getElem?_self {α : Type} (l : List α) (i : Nat) (f : α → α) :
    (updateAt l i f)[i]? = (l[i]?).map f := by
  unfold updateAt
  cases hl : l[i]? with
  | none => simp [hl]
  | some a =>
    rcases List.getElem?_eq_some_iff.mp hl with ⟨hi, _⟩
    rw [List.getElem?_set_eq hi]
    rfl

theorem mem_updateAt {α : Type} {l : List α} {i : Nat} {f : α → α} {a : α}
    (h : a ∈ updateAt l i f) :
    a ∈ l ∨ ∃ hi : i < l.length, a = f (l.get ⟨i, hi⟩) := by
  unfold updateAt at h
  cases hl : l[i]? with
  | none => rw [hl] at h; exact Or.inl h
  | some b =>
    rw [hl] at h
    rcases List.mem_or_eq_of_mem_set h with h1 | h1
    · exact Or.inl h1
    · rcases List.getElem?_eq_some_iff.mp hl with ⟨hi, hb⟩
      exact Or.inr ⟨hi, by rw [h1, List.get_eq_getElem, hb]⟩

theorem netStep_preserves_core (logs : List NetworkLogEntry) (ev : NetEvent) :
    logs.length ≤ (netStep logs ev).length
    ∧ ∀ i, i < logs.length →
        ((netStep logs ev)[i]?).map entryCore = (logs[i]?).map entryCore := by
  have hupd : ∀ (k : Nat) (f : NetworkLogEntry → NetworkLogEntry),
      (∀ e, entryCore (f e) = entryCore e) →
      logs.length ≤ (updateAt logs k f).length
      ∧ ∀ i, i < logs.length →
          ((updateAt logs k f)[i]?).map entryCore = (logs[i]?).map entryCore := by
    intro k f hf
    refine ⟨le_of_eq (updateAt_length logs k f).symm, ?_⟩
    intro i _
    by_cases hik : k = i
    · subst hik
      rw [updateAt_getElem?_self]
      cases hl : logs[k]? with
      | none => rfl
      | some e => simp [hf e]
    · rw [updateAt_getElem?_ne _ _ _ hik]
  cases ev with
  | requestSent params tabId now =>
    refine ⟨by simp [netStep, handleNetworkRequest], ?_⟩
    intro i hi
    simp [netStep, handleNetworkRequest, List.getElem?_append, hi]
  | responseReceived params now env =>
    simp only [netStep, handleNetworkResponse]
    cases hf : logs.findIdx? (matchesRequest params.requestId) with
    | none => exact ⟨le_rfl, fun i _ => rfl⟩
    | some k => exact hupd k _ (fun e => by simp [entryCore])
  | loadingFinished params now =>
    simp only [netStep, handleNetworkLoadingFinished]
    cases hf : logs.findIdx? (matchesRequest params.requestId) with
    | none => exact ⟨le_rfl, fun i _ => rfl⟩
    | some k => exact hupd k _ (fun e => by simp [entryCore])
  | loadingFailed params now =>
    simp only [netStep, handleNetworkLoadingFailed]
    cases hf : logs.findIdx? (matchesRequest params.requestId) with
    | none => exact ⟨le_rfl, fun i _ => rfl⟩
    | some k => exact hupd k _ (fun e => by simp [entryCore])

theorem netStep_terminal_source {logs : List NetworkLogEntry} {ev : NetEvent}
    {e : NetworkLogEntry} (he : e ∈ netStep logs ev) :
    (e.loadingFinished.isSome = true →
       (∃ e0 ∈ logs, e0.requestId = e.requestId ∧ e0.loadingFinished.isSome = true)
       ∨ evSetsFinishedFor e.requestId ev = true)
    ∧ (e.loadingFailed.isSome = true →
       (∃ e0 ∈ logs, e0.requestId = e.requestId ∧ e0.loadingFailed.isSome = true)
       ∨ evSetsFailedFor e.requestId ev = true) := by
  cases ev with
  | requestSent params tabId now =>
    simp only [netStep, handleNetworkRequest, List.mem_append, List.mem_singleton] at he
    rcases he with he | he
    · exact ⟨fun h => Or.inl ⟨e, he, rfl, h⟩, fun h => Or.inl ⟨e, he, rfl, h⟩⟩
    · subst he
      exact ⟨fun h => by simp [mkRequestEntry] at h, fun h => by simp [mkRequestEntry] at h⟩
  | responseReceived params now env =>
    simp only [netStep, handleNetworkResponse] at he
    cases hf : logs.findIdx? (matchesRequest params.requestId) with
    | none =>
      rw [hf] at he
      exact ⟨fun h => Or.inl ⟨e, he, rfl, h⟩, fun h => Or.inl ⟨e, he, rfl, h⟩⟩
    | some k =>
      rw [hf] at he
      rcases mem_updateAt he with h1 | ⟨hi, h1⟩
      · exact ⟨fun h => Or.inl ⟨e, h1, rfl, h⟩, fun h => Or.inl ⟨e, h1, rfl, h⟩⟩
      · subst h1
        exact ⟨fun h => Or.inl ⟨logs.get ⟨k, hi⟩, List.get_mem logs k hi, rfl, h⟩,
               fun h => Or.inl ⟨logs.get ⟨k, hi⟩, List.get_mem logs k hi, rfl, h⟩⟩
  | loadingFinished params now =>
    simp only [netStep, handleNetworkLoadingFinished] at he
    cases hf : logs.findIdx? (matchesRequest params.requestId) with
    | none =>
      rw [hf] at he
      exact ⟨fun h => Or.inl ⟨e, he, rfl, h⟩, fun h => Or.inl ⟨e, he, rfl, h⟩⟩
    | some k =>
      rw [hf] at he
      rcases mem_updateAt he with h1 | ⟨hi, h1⟩
      · exact ⟨fun h => Or.inl ⟨e, h1, rfl, h⟩, fun h => Or.inl ⟨e, h1, rfl, h⟩⟩
      · subst h1
        rcases List.findIdx?_eq_some_iff_getElem.mp hf with ⟨hlen, hp, _⟩
        have hid : logs[k].requestId = params.requestId := by
          have h2 := hp
          simp only [matchesRequest, Bool.and_eq_true, beq_iff_eq] at h2
          exact h2.1
        refine ⟨fun _ => Or.inr ?_, fun h => Or.inl ⟨logs.get ⟨k, hi⟩, List.get_mem logs k hi, rfl, h⟩⟩
        simp [evSetsFinishedFor, hid]
  | loadingFailed params now =>
    simp only [netStep, handleNetworkLoadingFailed] at he
    cases hf : logs.findIdx? (matchesRequest params.requestId) with
    | none =>
      rw [hf] at he
      exact ⟨fun h => Or.inl ⟨e, he, rfl, h⟩, fun h => Or.inl ⟨e, he, rfl, h⟩⟩
    | some k =>
      rw [hf] at he
      rcases mem_updateAt he with h1 | ⟨hi, h1⟩
      · exact ⟨fun h => Or.inl ⟨e, h1, rfl, h⟩, fun h => Or.inl ⟨e, h1, rfl, h⟩⟩
      · subst h1
        rcases List.findIdx?_eq_some_iff_getElem.mp hf with ⟨hlen, hp, _⟩
        have hid : logs[k].requestId = params.requestId := by
          have h2 := hp
          simp only [matchesRequest, Bool.and_eq_true, beq_iff_eq] at h2
          exact h2.1
        refine ⟨fun h => Or.inl ⟨logs.get ⟨k, hi⟩, List.get_mem logs k hi, rfl, h⟩, fun _ => Or.inr ?_⟩
        simp [evSetsFailedFor, hid]

theorem foldl_terminal_source (evs : List NetEvent) :
    ∀ (logs : List NetworkLogEntry) (e : NetworkLogEntry), e ∈ evs.foldl netStep logs →
      (e.loadingFinished.isSome = true →
         (∃ e0 ∈ logs, e0.requestId = e.requestId ∧ e0.loadingFinished.isSome = true)
         ∨ hasFinishedEventB e.requestId evs = true)
      ∧ (e.loadingFailed.isSome = true →
         (∃ e0 ∈ logs, e0.requestId = e.requestId ∧ e0.loadingFailed.isSome = true)
         ∨ hasFailedEventB e.requestId evs = true) := by
  induction evs with
  | nil =>
    intro logs e he
    simp only [List.foldl_nil] at he
    exact ⟨fun h => Or.inl ⟨e, he, rfl, h⟩, fun h => Or.inl ⟨e, he, rfl, h⟩⟩
  | cons ev rest ih =>
    intro logs e he
    rw [List.foldl_cons] at he
    have H := ih (netStep logs ev) e he
    constructor
    · intro h
      rcases H.1 h with ⟨e0, he0, hid, hfin⟩ | hrest
      · rcases (netStep_terminal_source he0).1 hfin with ⟨e1, he1, hid1, hfin1⟩ | hev
        · exact Or.inl ⟨e1, he1, hid1.trans hid, hfin1⟩
        · rw [hid] at hev
          exact Or.inr (by simp [hasFinishedEventB, List.any_cons, hev])
      · exact Or.inr (by simp [hasFinishedEventB, List.any_cons] at hrest ⊢; exact Or.inr hrest)
    · intro h
      rcases H.2 h with ⟨e0, he0, hid, hfail⟩ | hrest
      · rcases (netStep_terminal_source he0).2 hfail with ⟨e1, he1, hid1, hfail1⟩ | hev
        · exact Or.inl ⟨e1, he1, hid1.trans hid, hfail1⟩
        · rw [hid] at hev
          exact Or.inr (by simp [hasFailedEventB, List.any_cons, hev])
      · exact Or.inr (by simp [hasFailedEventB, List.any_cons] at hrest ⊢; exact Or.inr hrest)

theorem getElementData_value_blind (el : Element) (v : Option String) :
    getElementData { el with value := v } = getElementData el := rfl

/- ===== Claim C1 ===== -/

/-- C1 counterexample.  The claim says a response-received event is
attached to the most recent entry whose requestId matches and whose
response is not yet set.  Delivering requestWillBeSent(x),
responseReceived(x, status 200), requestWillBeSent(x),
responseReceived(x, status 201) refutes it: the entry created at 1002 is
the most recent one with requestId x and no response when the second
response event arrives, yet afterwards it still has no response, while the
first entry (which already carried status 200) had its response
overwritten with status 201.  So an entry for which a response event was
delivered ends without a response field. -/
theorem response_attached_despite_pending_entry :
    ((runNetEvents dupResponseEvents).map
        (fun e => (e.timestamp, e.response.map (fun r => r.status))))
      = [(1000, some 201), (1002, none)] := by decide

/-- C1 amended: handleNetworkResponse attaches the response built from the
event to the entry at the FIRST index whose requestId matches (the
findIndex result), whether or not that entry already has a response,
overwriting any previous one, and leaves every other entry unchanged;
when no entry matches, the event is discarded and the log is unchanged. -/
theorem handleNetworkResponse_first_match_policy (params : ResponseParams)
    (now : Int) (env : BodyFetchEnv) (logs : List NetworkLogEntry) :
    (∀ i, logs.findIdx? (matchesRequest params.requestId) = some i →
      (handleNetworkResponse params now env logs)[i]?
          = (logs[i]?).map (fun e => { e with response := some (buildResponse params now env) })
        ∧ ∀ j, j ≠ i → (handleNetworkResponse params now env logs)[j]? = logs[j]?)
    ∧ (logs.findIdx? (matchesRequest params.requestId) = none →
        handleNetworkResponse params now env logs = logs) := by
  constructor
  · intro i hf
    unfold handleNetworkResponse
    rw [hf]
    exact ⟨updateAt_getElem?_self logs i _,
           fun j hj => updateAt_getElem?_ne logs i _ (fun h => hj h.symm)⟩
  · intro hf
    unfold handleNetworkResponse
    rw [hf]

/-- Witness for the amended C1 theorem, on the log holding two entries with
id x: the first match for id x is index 0, and the theorem applies there. -/
theorem handleNetworkResponse_first_match_policy_witness :
    (runNetEvents [NetEvent.requestSent reqX 1 1000, NetEvent.requestSent reqX 1 1002]).findIdx?
        (matchesRequest (respX 200).requestId) = some 0
    ∧ ((handleNetworkResponse (respX 200) 1001 envNone
          (runNetEvents [NetEvent.requestSent reqX 1 1000, NetEvent.requestSent reqX 1 1002]))[0]?
        = ((runNetEvents [NetEvent.requestSent reqX 1 1000, NetEvent.requestSent reqX 1 1002])[0]?).map
            (fun e => { e with response := some (buildResponse (respX 200) 1001 envNone) })
      ∧ ∀ j, j ≠ 0 → (handleNetworkResponse (respX 200) 1001 envNone
          (runNetEvents [NetEvent.requestSent reqX 1 1000, NetEvent.requestSent reqX 1 1002]))[j]?
            = (runNetEvents [NetEvent.requestSent reqX 1 1000, NetEvent.requestSent reqX 1 1002])[j]?) :=
  ⟨by decide,
   (handleNetworkResponse_first_match_policy (respX 200) 1001 envNone
      (runNetEvents [NetEvent.requestSent reqX 1 1000, NetEvent.requestSent reqX 1 1002])).1 0 (by decide)⟩

/- ===== Claim C2 ===== -/

/-- C2 counterexample.  The claim says delivering a loading-finished and a
loading-failed event for the same request id never yields an entry carrying
both terminal sub-records.  Running requestWillBeSent(x),
loadingFinished(x), loadingFailed(x) refutes it: the resulting single entry
carries both loadingFinished and loadingFailed, because neither handler
checks for the other terminal record before writing its own. -/
theorem both_terminal_records_set :
    ((runNetEvents finThenFailEvents).map
        (fun e => (e.loadingFinished.isSome, e.loadingFailed.isSome)))
      = [(true, true)] := by decide

/-- C2 amended: an entry carries loadingFinished only if a loadingFinished
event was delivered for its request id, and likewise for loadingFailed; so
over any run in which no request id receives both kinds of terminal event,
at most one of the two terminal sub-records is ever set on any entry. -/
theorem at_most_one_terminal_without_both_kinds (evs : List NetEvent)
    (h : ∀ requestId, ¬(hasFinishedEventB requestId evs = true
                        ∧ hasFailedEventB requestId evs = true)) :
    ∀ e ∈ runNetEvents evs,
      ¬(e.loadingFinished.isSome = true ∧ e.loadingFailed.isSome = true) := by
  intro e he hboth
  have H := foldl_terminal_source evs [] e he
  rcases H.1 hboth.1 with ⟨e0, he0, _⟩ | hfin
  · exact absurd he0 (List.not_mem_nil e0)
  rcases H.2 hboth.2 with ⟨e0, he0, _⟩ | hfail
  · exact absurd he0 (List.not_mem_nil e0)
  exact h e.requestId ⟨hfin, hfail⟩

/-- Witness for the amended C2 theorem: a run delivering only
loadingFinished events (twice, for the same id) satisfies the hypothesis,
and no entry of its outcome carries both terminal records. -/
theorem at_most_one_terminal_without_both_kinds_witness :
    (∀ requestId, ¬(hasFinishedEventB requestId finOnlyEvents = true
                    ∧ hasFailedEventB requestId finOnlyEvents = true))
    ∧ ∀ e ∈ runNetEvents finOnlyEvents,
        ¬(e.loadingFinished.isSome = true ∧ e.loadingFailed.isSome = true) :=
  have hd : ∀ requestId, ¬(hasFinishedEventB requestId finOnlyEvents = true
                           ∧ hasFailedEventB requestId finOnlyEvents = true) := by
    intro rid hcon
    simp [finOnlyEvents, hasFailedEventB, evSetsFailedFor] at hcon
  ⟨hd, at_most_one_terminal_without_both_kinds finOnlyEvents hd⟩

/- ===== Claim C3 ===== -/

/-- C3 counterexample.  The claim says every orchestrator operation other
than clear-all, including starting a new recording session, keeps every
network log entry.  It fails: startRecording resets networkLogs to the
empty array (src/background.js line 628), so the entry held before the
operation is gone afterwards. -/
theorem startRecording_clears_networkLogs :
    entryX ∈ sessionWithEntry.networkLogs
    ∧ (applyOp sessionWithEntry (Op.startRecording 1)).networkLogs = [] := by
  constructor
  · simp [sessionWithEntry]
  · rfl

/-- C3 amended: network log entries are never deleted except by the
clear-all operation or by starting a new recording session (which resets
the log to empty); every other orchestrator operation keeps every existing
entry at its position with its creation-time fields intact (the phase
handlers only add sub-records or append new entries). -/
theorem networkLogs_preserved_except_clear_and_start (st : SessionState) (op : Op)
    (hstart : ∀ tabId, op ≠ Op.startRecording tabId)
    (hclear : op ≠ Op.clearAllLogs) :
    st.networkLogs.length ≤ (applyOp st op).networkLogs.length
    ∧ ∀ i, i < st.networkLogs.length →
        ((applyOp st op).networkLogs[i]?).map entryCore
          = (st.networkLogs[i]?).map entryCore := by
  cases op with
  | startRecording t => exact absurd rfl (hstart t)
  | clearAllLogs => exact absurd rfl hclear
  | debuggerEvent src ev =>
    simp only [applyOp]
    by_cases hmem : st.attachedTabs.contains src
    · rw [if_pos hmem]
      exact netStep_preserves_core st.networkLogs ev
    · rw [if_neg hmem]
      exact ⟨le_rfl, fun i _ => rfl⟩
  | stopRecording t => exact ⟨le_rfl, fun i _ => rfl⟩
  | logInteraction d n => exact ⟨le_rfl, fun i _ => rfl⟩
  | captureSnapshot s => exact ⟨le_rfl, fun i _ => rfl⟩
  | exportLogs => exact ⟨le_rfl, fun i _ => rfl⟩
  | getStatus => exact ⟨le_rfl, fun i _ => rfl⟩

/-- Witness for the amended C3 theorem: a terminal phase event delivered to
the session holding one entry preserves that entry. -/
theorem networkLogs_preserved_except_clear_and_start_witness :
    (∀ tabId, Op.debuggerEvent 1 (NetEvent.loadingFinished { requestId := "x", encodedDataLength := 5 } 1001)
        ≠ Op.startRecording tabId)
    ∧ (Op.debuggerEvent 1 (NetEvent.loadingFinished { requestId := "x", encodedDataLength := 5 } 1001)
        ≠ Op.clearAllLogs)
    ∧ (sessionWithEntry.networkLogs.length
        ≤ (applyOp sessionWithEntry (Op.debuggerEvent 1 (NetEvent.loadingFinished { requestId := "x", encodedDataLength := 5 } 1001))).networkLogs.length
      ∧ ∀ i, i < sessionWithEntry.networkLogs.length →
          ((applyOp sessionWithEntry (Op.debuggerEvent 1 (NetEvent.loadingFinished { requestId := "x", encodedDataLength := 5 } 1001))).networkLogs[i]?).map entryCore
            = (sessionWithEntry.networkLogs[i]?).map entryCore) :=
  ⟨fun _ => Op.noConfusion, Op.noConfusion,
   networkLogs_preserved_except_clear_and_start sessionWithEntry
     (Op.debuggerEvent 1 (NetEvent.loadingFinished { requestId := "x", encodedDataLength := 5 } 1001))
     (fun _ => Op.noConfusion) Op.noConfusion⟩

/- ===== Claim C4 ===== -/

/-- C4: when a request-sent event arrives for an id that already appears in
the network log, handleNetworkRequest appends a fresh entry at the end of
the array (the new entry is distinguished from the older ones by its
position, which is its internal sequence number) and every existing entry
is left exactly as it was; nothing is overwritten. -/
theorem duplicate_id_appends_new_entry (params : RequestParams) (tabId now : Int)
    (logs : List NetworkLogEntry)
    (hdup : ∃ e ∈ logs, e.requestId = params.requestId) :
    (handleNetworkRequest params tabId now logs).length = logs.length + 1
    ∧ (∀ i, i < logs.length → (handleNetworkRequest params tabId now logs)[i]? = logs[i]?)
    ∧ (handleNetworkRequest params tabId now logs)[logs.length]?
        = some (mkRequestEntry params tabId now) := by
  refine ⟨by simp [handleNetworkRequest], ?_, ?_⟩
  · intro i hi
    simp [handleNetworkRequest, List.getElem?_append, hi]
  · simp [handleNetworkRequest, List.getElem?_concat_length]

/-- Witness for the C4 theorem: a second request with id x appended to the
log already holding the first. -/
theorem duplicate_id_appends_new_entry_witness :
    (∃ e ∈ [entryX], e.requestId = reqX.requestId)
    ∧ ((handleNetworkRequest reqX 1 1002 [entryX]).length = [entryX].length + 1
      ∧ (∀ i, i < [entryX].length → (handleNetworkRequest reqX 1 1002 [entryX])[i]? = [entryX][i]?)
      ∧ (handleNetworkRequest reqX 1 1002 [entryX])[[entryX].length]?
          = some (mkRequestEntry reqX 1 1002)) :=
  ⟨by decide, duplicate_id_appends_new_entry reqX 1 1002 [entryX] (by decide)⟩

/- ===== Aggregation lemmas shared by C5 and C6 ===== -/

theorem aggregate_pairwise_le (networkLogs : List NetworkLogEntry)
    (interactionLogs : List InteractionLogEntry) (elementSnapshots : List ElementSnapshot) :
    List.Pairwise (fun a b : TimelineEvent => a.timestamp ≤ b.timestamp)
      (aggregateEvents networkLogs interactionLogs elementSnapshots) := by
  have htrans : ∀ (a b c : TimelineEvent), (decide (a.timestamp ≤ b.timestamp)) = true →
      (decide (b.timestamp ≤ c.timestamp)) = true → (decide (a.timestamp ≤ c.timestamp)) = true := by
    intro a b c h1 h2
    simp only [decide_eq_true_eq] at h1 h2 ⊢
    exact le_trans h1 h2
  have htotal : ∀ (a b : TimelineEvent),
      ((decide (a.timestamp ≤ b.timestamp)) || (decide (b.timestamp ≤ a.timestamp))) = true := by
    intro a b
    simp only [Bool.or_eq_true, decide_eq_true_eq]
    exact le_total a.timestamp b.timestamp
  have h := List.sorted_mergeSort htrans htotal
    (tagTimelineEvents networkLogs interactionLogs elementSnapshots)
  exact h.imp (fun hab => by simpa using hab)

theorem aggregate_filter_stable (networkLogs : List NetworkLogEntry)
    (interactionLogs : List InteractionLogEntry) (elementSnapshots : List ElementSnapshot)
    (t : Int) :
    (aggregateEvents networkLogs interactionLogs elementSnapshots).filter
        (fun e => e.timestamp == t)
      = (tagTimelineEvents networkLogs interactionLogs elementSnapshots).filter
        (fun e => e.timestamp == t) := by
  have htrans : ∀ (a b c : TimelineEvent), (decide (a.timestamp ≤ b.timestamp)) = true →
      (decide (b.timestamp ≤ c.timestamp)) = true → (decide (a.timestamp ≤ c.timestamp)) = true := by
    intro a b c h1 h2
    simp only [decide_eq_true_eq] at h1 h2 ⊢
    exact le_trans h1 h2
  have htotal : ∀ (a b : TimelineEvent),
      ((decide (a.timestamp ≤ b.timestamp)) || (decide (b.timestamp ≤ a.timestamp))) = true := by
    intro a b
    simp only [Bool.or_eq_true, decide_eq_true_eq]
    exact le_total a.timestamp b.timestamp
  have hpw : List.Pairwise (fun a b : TimelineEvent =>
      (decide (a.timestamp ≤ b.timestamp)) = true)
      ((tagTimelineEvents networkLogs interactionLogs elementSnapshots).filter
        (fun e => e.timestamp == t)) := by
    apply List.pairwise_of_forall_mem_list
    intro a ha b hb
    have ha2 := (List.mem_filter.mp ha).2
    have hb2 := (List.mem_filter.mp hb).2
    simp only [beq_iff_eq] at ha2 hb2
    simp [ha2, hb2]
  have hsub := List.sublist_mergeSort htrans htotal hpw
    (List.filter_sublist (tagTimelineEvents networkLogs interactionLogs elementSnapshots))
  have hsub2 := hsub.filter (fun e => e.timestamp == t)
  rw [List.filter_filter] at hsub2
  have hand : (fun (a : TimelineEvent) => (a.timestamp == t) && (a.timestamp == t))
      = fun (a : TimelineEvent) => a.timestamp == t := by
    funext a
    exact Bool.and_self _
  rw [hand] at hsub2
  have hperm := List.mergeSort_perm
    (tagTimelineEvents networkLogs interactionLogs elementSnapshots)
    (fun a b : TimelineEvent => decide (a.timestamp ≤ b.timestamp))
  have hlen := ((hperm.filter (fun e => e.timestamp == t))).length_eq
  exact (hsub2.eq_of_length hlen.symm).symm

theorem timelineStartTime_le_mem (now : Int) {l : List TimelineEvent}
    (hp : List.Pairwise (fun a b : TimelineEvent => a.timestamp ≤ b.timestamp) l)
    {e : TimelineEvent} (he : e ∈ l) : timelineStartTime now l ≤ e.timestamp := by
  cases l with
  | nil => cases he
  | cons x xs =>
    rcases List.mem_cons.mp he with rfl | hmem
    · simp [timelineStartTime]
    · have hx := (List.pairwise_cons.mp hp).1 e hmem
      simpa [timelineStartTime] using hx

theorem mem_le_timelineEndTime (now : Int) : ∀ (l : List TimelineEvent),
    List.Pairwise (fun a b : TimelineEvent => a.timestamp ≤ b.timestamp) l →
    ∀ e ∈ l, e.timestamp ≤ timelineEndTime now l := by
  intro l
  induction l with
  | nil => intro _ e he; cases he
  | cons x xs ih =>
    intro hp e he
    cases xs with
    | nil =>
      rcases List.mem_singleton.mp he with rfl
      simp [timelineEndTime]
    | cons y ys =>
      have hstep : timelineEndTime now (x :: y :: ys) = timelineEndTime now (y :: ys) := by
        simp [timelineEndTime, List.getLast?_cons_cons]
      rcases List.mem_cons.mp he with rfl | hmem
      · obtain ⟨z, hz⟩ : ∃ z, (y :: ys).getLast? = some z := by
          cases hcase : (y :: ys).getLast? with
          | none => exact absurd (List.getLast?_eq_none_iff.mp hcase) (by simp)
          | some z => exact ⟨z, rfl⟩
        have hzmem : z ∈ y :: ys := by
          rcases List.getLast?_eq_some_iff.mp hz with ⟨ys2, hys⟩
          rw [hys]
          exact List.mem_append_right _ (List.mem_singleton.mpr rfl)
        have hx := (List.pairwise_cons.mp hp).1 z hzmem
        rw [hstep]
        simpa [timelineEndTime, hz] using hx
      · rw [hstep]
        exact ih (List.pairwise_cons.mp hp).2 e hmem

theorem timelineEndTime_mem {l : List TimelineEvent} (now : Int) (hne : l ≠ []) :
    ∃ e ∈ l, e.timestamp = timelineEndTime now l := by
  obtain ⟨z, hz⟩ : ∃ z, l.getLast? = some z := by
    cases hcase : l.getLast? with
    | none => exact absurd (List.getLast?_eq_none_iff.mp hcase) hne
    | some z => exact ⟨z, rfl⟩
  refine ⟨z, ?_, by simp [timelineEndTime, hz]⟩
  rcases List.getLast?_eq_some_iff.mp hz with ⟨ys2, hys⟩
  rw [hys]
  exact List.mem_append_right _ (List.mem_singleton.mpr rfl)

/- ===== Claim C5 ===== -/

/-- C5: for any three input logs, the aggregation step tags and
concatenates them in network-then-interaction-then-snapshot order and
returns a sequence non-decreasing in timestamp; the sort is stable, in
that the subsequence of records carrying any fixed timestamp is exactly
the subsequence of the original concatenation with that timestamp, in the
same relative order. -/
theorem aggregate_sorted_and_stable (networkLogs : List NetworkLogEntry)
    (interactionLogs : List InteractionLogEntry) (elementSnapshots : List ElementSnapshot) :
    List.Pairwise (fun a b : TimelineEvent => a.timestamp ≤ b.timestamp)
      (aggregateEvents networkLogs interactionLogs elementSnapshots)
    ∧ ∀ t : Int,
        (aggregateEvents networkLogs interactionLogs elementSnapshots).filter
            (fun e => e.timestamp == t)
          = (tagTimelineEvents networkLogs interactionLogs elementSnapshots).filter
            (fun e => e.timestamp == t) :=
  ⟨aggregate_pairwise_le networkLogs interactionLogs elementSnapshots,
   aggregate_filter_stable networkLogs interactionLogs elementSnapshots⟩

/- ===== Claim C6 ===== -/

/-- C6: the aggregation derives startTime as the first (minimum) sorted
timestamp and endTime as the last (maximum) one, so on a non-empty merged
set endTime is at least startTime, both are timestamps of actual events,
and the relative time of every event lies between 0 and the duration;
on an empty combined input both bounds equal the current time and the
duration is 0. -/
theorem timeline_bounds_valid (now : Int) (networkLogs : List NetworkLogEntry)
    (interactionLogs : List InteractionLogEntry) (elementSnapshots : List ElementSnapshot) :
    (aggregateEvents networkLogs interactionLogs elementSnapshots ≠ [] →
      timelineStartTime now (aggregateEvents networkLogs interactionLogs elementSnapshots)
          ≤ timelineEndTime now (aggregateEvents networkLogs interactionLogs elementSnapshots)
      ∧ (∀ e ∈ aggregateEvents networkLogs interactionLogs elementSnapshots,
          0 ≤ e.timestamp
              - timelineStartTime now (aggregateEvents networkLogs interactionLogs elementSnapshots)
          ∧ e.timestamp
              - timelineStartTime now (aggregateEvents networkLogs interactionLogs elementSnapshots)
            ≤ timelineDuration now (aggregateEvents networkLogs interactionLogs elementSnapshots))
      ∧ (∃ e ∈ aggregateEvents networkLogs interactionLogs elementSnapshots,
          e.timestamp = timelineStartTime now (aggregateEvents networkLogs interactionLogs elementSnapshots))
      ∧ (∃ e ∈ aggregateEvents networkLogs interactionLogs elementSnapshots,
          e.timestamp = timelineEndTime now (aggregateEvents networkLogs interactionLogs elementSnapshots)))
    ∧ (aggregateEvents networkLogs interactionLogs elementSnapshots = [] →
      timelineStartTime now (aggregateEvents networkLogs interactionLogs elementSnapshots) = now
      ∧ timelineEndTime now (aggregateEvents networkLogs interactionLogs elementSnapshots) = now
      ∧ timelineDuration now (aggregateEvents networkLogs interactionLogs elementSnapshots) = 0) := by
  have hp := aggregate_pairwise_le networkLogs interactionLogs elementSnapshots
  constructor
  · intro hne
    have hstartmem : ∃ e ∈ aggregateEvents networkLogs interactionLogs elementSnapshots,
        e.timestamp = timelineStartTime now (aggregateEvents networkLogs interactionLogs elementSnapshots) := by
      cases hcase : aggregateEvents networkLogs interactionLogs elementSnapshots with
      | nil => exact absurd hcase hne
      | cons x xs => exact ⟨x, List.mem_cons_self x xs, by simp [timelineStartTime]⟩
    have hendmem := timelineEndTime_mem now hne
    rcases hendmem with ⟨z, hzmem, hzts⟩
    rcases hstartmem with ⟨w, hwmem, hwts⟩
    refine ⟨?_, ?_, ⟨w, hwmem, hwts⟩, ⟨z, hzmem, hzts⟩⟩
    · rw [← hzts]
      exact timelineStartTime_le_mem now hp hzmem
    · intro e hemem
      have h1 := timelineStartTime_le_mem now hp hemem
      have h2 := mem_le_timelineEndTime now _ hp e hemem
      unfold timelineDuration
      omega
  · intro hnil
    rw [hnil]
    refine ⟨rfl, rfl, ?_⟩
    simp [timelineDuration, timelineStartTime, timelineEndTime]

/-- Witness for the C6 theorem: one network entry, no interactions, no
snapshots; the merged set is non-empty and its bounds are valid. -/
theorem timeline_bounds_valid_witness :
    aggregateEvents [entryX] [] [] ≠ []
    ∧ (timelineStartTime 999 (aggregateEvents [entryX] [] [])
          ≤ timelineEndTime 999 (aggregateEvents [entryX] [] [])
      ∧ (∀ e ∈ aggregateEvents [entryX] [] [],
          0 ≤ e.timestamp - timelineStartTime 999 (aggregateEvents [entryX] [] [])
          ∧ e.timestamp - timelineStartTime 999 (aggregateEvents [entryX] [] [])
            ≤ timelineDuration 999 (aggregateEvents [entryX] [] []))
      ∧ (∃ e ∈ aggregateEvents [entryX] [] [],
          e.timestamp = timelineStartTime 999 (aggregateEvents [entryX] [] []))
      ∧ (∃ e ∈ aggregateEvents [entryX] [] [],
          e.timestamp = timelineEndTime 999 (aggregateEvents [entryX] [] []))) :=
  have hne : aggregateEvents [entryX] [] [] ≠ [] := by
    intro hcon
    have hlen := (List.mergeSort_perm (tagTimelineEvents [entryX] [] [])
      (fun a b : TimelineEvent => decide (a.timestamp ≤ b.timestamp))).length_eq
    rw [show aggregateEvents [entryX] [] []
        = (tagTimelineEvents [entryX] [] []).mergeSort
          (fun a b : TimelineEvent => decide (a.timestamp ≤ b.timestamp)) from rfl] at hcon
    rw [hcon] at hlen
    simp [tagTimelineEvents] at hlen
  ⟨hne, (timeline_bounds_valid 999 [entryX] [] []).1 hne⟩

/- ===== Claim C7 ===== -/

set_option maxRecDepth 20000 in
/-- C7: the video-timeline renderer embeds the video inline as an encoded
data payload exactly when the artifact size is strictly below the fixed
10 MiB cutoff; at or above the cutoff it references the co-located file
name instead (falling back to video.webm); and with no artifact the
resolved source is empty, the container holds the no-video placeholder
(which announces that the recording is not available), and no media
element appears in it. -/
theorem video_embedding_policy (b : Blob) (fn : Option String) :
    (b.size < maxDataUrlSize → resolveVideoSrc (some b) fn = some (readAsDataURL b))
    ∧ (maxDataUrlSize ≤ b.size → resolveVideoSrc (some b) fn = some (fn.getD "video.webm"))
    ∧ resolveVideoSrc none fn = none
    ∧ videoContainerHTML (resolveVideoSrc none none) none = videoPlaceholderHTML none
    ∧ hasSubList (videoPlaceholderHTML none).toList ("Video recording not available".toList) = true
    ∧ hasSubList (videoPlaceholderHTML none).toList ("<video".toList) = false := by
  refine ⟨?_, ?_, rfl, rfl, by decide, by decide⟩
  · intro h
    simp [resolveVideoSrc, h]
  · intro h
    simp [resolveVideoSrc, Nat.not_lt.mpr h]

/-- Witness for the C7 theorem: a 5-byte blob is embedded inline, and a
blob exactly at the cutoff is referenced by its file name. -/
theorem video_embedding_policy_witness :
    (smallBlob.size < maxDataUrlSize
      ∧ resolveVideoSrc (some smallBlob) (some "v.webm") = some (readAsDataURL smallBlob))
    ∧ (maxDataUrlSize ≤ bigBlob.size
      ∧ resolveVideoSrc (some bigBlob) (some "v.webm") = some ((some "v.webm").getD "video.webm")) :=
  ⟨⟨by decide, (video_embedding_policy smallBlob (some "v.webm")).1 (by decide)⟩,
   ⟨by decide, (video_embedding_policy bigBlob (some "v.webm")).2.1 (by decide)⟩⟩

/- ===== Claim C8 ===== -/

/-- C8: parsing the rendered JSON back (JSON.parse of the stringified
document denotes the tree built by exportDataToJson) reproduces the
summary counts exactly: totalNetworkRequests, totalInteractions and
totalElementSnapshots in the parsed summary equal the lengths of the
parsed networkLogs, interactionLogs and elementSnapshots arrays. -/
theorem export_summary_counts_roundtrip (exportDate : String) (tabId : Int) (mode : String)
    (networkLogs : List NetworkLogEntry) (interactionLogs : List InteractionLogEntry)
    (elementSnapshots : List ElementSnapshot)
    (videoBlob : Option Blob) (videoFileName : Option String) :
    ((exportDataToJson (mkExportData exportDate tabId mode networkLogs interactionLogs
          elementSnapshots videoBlob videoFileName)).getField "summary").bind
        (fun s => (s.getField "totalNetworkRequests").bind Json.asNum)
      = some (networkLogs.length : Int)
    ∧ ((exportDataToJson (mkExportData exportDate tabId mode networkLogs interactionLogs
          elementSnapshots videoBlob videoFileName)).getField "networkLogs").bind Json.arrayLength
      = some networkLogs.length
    ∧ ((exportDataToJson (mkExportData exportDate tabId mode networkLogs interactionLogs
          elementSnapshots videoBlob videoFileName)).getField "summary").bind
        (fun s => (s.getField "totalInteractions").bind Json.asNum)
      = some (interactionLogs.length : Int)
    ∧ ((exportDataToJson (mkExportData exportDate tabId mode networkLogs interactionLogs
          elementSnapshots videoBlob videoFileName)).getField "interactionLogs").bind Json.arrayLength
      = some interactionLogs.length
    ∧ ((exportDataToJson (mkExportData exportDate tabId mode networkLogs interactionLogs
          elementSnapshots videoBlob videoFileName)).getField "summary").bind
        (fun s => (s.getField "totalElementSnapshots").bind Json.asNum)
      = some (elementSnapshots.length : Int)
    ∧ ((exportDataToJson (mkExportData exportDate tabId mode networkLogs interactionLogs
          elementSnapshots videoBlob videoFileName)).getField "elementSnapshots").bind Json.arrayLength
      = some elementSnapshots.length := by
  have harr : ∀ (l : List Json), (some (Json.arr l)).bind Json.arrayLength = some l.length :=
    fun l => rfl
  refine ⟨rfl, ?_, rfl, ?_, rfl, ?_⟩
  · rw [show (exportDataToJson (mkExportData exportDate tabId mode networkLogs interactionLogs
        elementSnapshots videoBlob videoFileName)).getField "networkLogs"
        = some (Json.arr (networkLogs.map networkLogEntryToJson)) from rfl, harr, List.length_map]
  · rw [show (exportDataToJson (mkExportData exportDate tabId mode networkLogs interactionLogs
        elementSnapshots videoBlob videoFileName)).getField "interactionLogs"
        = some (Json.arr (interactionLogs.map interactionLogEntryToJson)) from rfl, harr, List.length_map]
  · rw [show (exportDataToJson (mkExportData exportDate tabId mode networkLogs interactionLogs
        elementSnapshots videoBlob videoFileName)).getField "elementSnapshots"
        = some (Json.arr (elementSnapshots.map elementSnapshotToJson)) from rfl, harr, List.length_map]

/- ===== Claim C9 ===== -/

/-- C9: the interaction record logged for an input event carries the value
only through its length (plus the input type and the element descriptor,
which is computed without reading the live value property): two input
events on the same element whose values have equal length produce
identical records no matter what the values contain. -/
theorem input_record_value_blind (recording : Bool) (el : Element)
    (v1 v2 : Option String) (inputType : Option String) (url : String)
    (hlen : (v1.map String.length).getD 0 = (v2.map String.length).getD 0) :
    handleInput recording { el with value := v1 } inputType url
      = handleInput recording { el with value := v2 } inputType url := by
  cases v1 with
  | none =>
    cases v2 with
    | none => rfl
    | some b =>
      have hb : b.length = 0 := by simpa using hlen.symm
      simp [handleInput, hb, getElementData_value_blind]
  | some a =>
    cases v2 with
    | none =>
      have ha : a.length = 0 := by simpa using hlen
      simp [handleInput, ha, getElementData_value_blind]
    | some b =>
      have hab : a.length = b.length := by simpa using hlen
      simp [handleInput, hab, getElementData_value_blind]

/-- Witness for the C9 theorem: typing two different six-character values
into the same input box yields literally identical log records. -/
theorem input_record_value_blind_witness :
    ((some "secret").map String.length).getD 0 = ((some "public").map String.length).getD 0
    ∧ handleInput true { inputBoxW with value := some "secret" } (some "insertText") "u"
        = handleInput true { inputBoxW with value := some "public" } (some "insertText") "u" :=
  ⟨by decide,
   input_record_value_blind true inputBoxW (some "secret") (some "public")
     (some "insertText") "u" (by decide)⟩

/- ===== Claim C10 ===== -/

/-- C10: when the blob store hands back a value that is not a Blob, or a
Blob of size zero, a video-mode export treats the video as absent: the
document carries hasVideo false with no file name or size, no separate
video file download is attempted, and the JSON and HTML downloads still
happen. -/
theorem invalid_stored_video_treated_as_absent (tabId : Int)
    (networkLogs : List NetworkLogEntry) (interactionLogs : List InteractionLogEntry)
    (elementSnapshots : List ElementSnapshot) (exportDate : String) (now : Int)
    (stored : StoredVideo)
    (h : stored = StoredVideo.notBlob ∨ ∃ b, stored = StoredVideo.blob b ∧ b.size = 0) :
    (exportAllLogs tabId "video" networkLogs interactionLogs elementSnapshots stored
        exportDate now).exportData.videoData = { hasVideo := false }
    ∧ (exportAllLogs tabId "video" networkLogs interactionLogs elementSnapshots stored
        exportDate now).videoDownloadFileName = none
    ∧ (exportAllLogs tabId "video" networkLogs interactionLogs elementSnapshots stored
        exportDate now).jsonDownloaded = true
    ∧ (exportAllLogs tabId "video" networkLogs interactionLogs elementSnapshots stored
        exportDate now).htmlDownloaded = true := by
  rcases h with rfl | ⟨b, rfl, hb⟩
  · exact ⟨rfl, rfl, rfl, rfl⟩
  · refine ⟨?_, ?_, rfl, rfl⟩ <;> simp [exportAllLogs, mkExportData, hb]

/-- Witness for the C10 theorem: exporting in video mode while the blob
store holds a zero-byte blob. -/
theorem invalid_stored_video_treated_as_absent_witness :
    (StoredVideo.blob emptyBlob = StoredVideo.notBlob
      ∨ ∃ b, StoredVideo.blob emptyBlob = StoredVideo.blob b ∧ b.size = 0)
    ∧ ((exportAllLogs 1 "video" [] [] [] (StoredVideo.blob emptyBlob) "d" 1000).exportData.videoData
        = { hasVideo := false }
      ∧ (exportAllLogs 1 "video" [] [] [] (StoredVideo.blob emptyBlob) "d" 1000).videoDownloadFileName = none
      ∧ (exportAllLogs 1 "video" [] [] [] (StoredVideo.blob emptyBlob) "d" 1000).jsonDownloaded = true
      ∧ (exportAllLogs 1 "video" [] [] [] (StoredVideo.blob emptyBlob) "d" 1000).htmlDownloaded = true) :=
  ⟨Or.inr ⟨emptyBlob, rfl, rfl⟩,
   invalid_stored_video_treated_as_absent 1 [] [] [] "d" 1000 (StoredVideo.blob emptyBlob)
     (Or.inr ⟨emptyBlob, rfl, rfl⟩)⟩

end CaptureAll
